import Mathlib

/-!
Shallow embedding of the `sitepoint-fastify` blog CRUD service.

The source keeps a module-level mutable array `blogs` of `{id, title}`
objects (`src/controller/blogs.js`) and five async handlers over it.  We
embed the collection as an explicit state threaded through each handler:

* A JavaScript number is `JsNum := Option ℚ`, with `none` playing NaN
  (every strict comparison against NaN is false).
* An array slot is `Option Blog`, with `none` playing `undefined`
  (the source's `updateBlog` maps non-matching slots to `undefined`,
  and a later property access `slot.id` on such a slot throws).
* A handler that may throw a TypeError returns `Except JsErr`.

Handlers keep their source names (`getAllBlogs`, `getBlog`, `addBlog`,
`updateBlog`, `deleteBlog`), and `blogs` is the demo data the module
starts with.
-/

/-- A JavaScript number: `none` is NaN, `some q` a (rational) value.
The source only ever produces integers, but `Number()` can parse
decimal fractions, so we carry ℚ. -/
abbrev JsNum := Option ℚ

/-- Strict equality `===` between JavaScript numbers: NaN compares
false against everything, including itself. -/
def jsEq : JsNum → JsNum → Bool
  | some a, some b => a == b
  | _, _ => false

/-- A blog record: `{ id, title }`. -/
structure Blog where
  id : JsNum
  title : String
deriving DecidableEq, Repr

/-- The store collection: an array whose slots may hold `undefined`
(`none`), as produced by the source's `updateBlog`. -/
abbrev Blogs := List (Option Blog)

/-- A runtime error a handler can throw. -/
inductive JsErr where
  | typeError
deriving DecidableEq, Repr

/-- The demo data the controller module initialises `blogs` with. -/
def blogs : Blogs :=
  [ some ⟨some 1, "This is an experiment"⟩,
    some ⟨some 2, "Fastify is pretty cool"⟩,
    some ⟨some 3, "Just another blog, yea!"⟩ ]

/-! ### `Number()` on the path-parameter string

Modelled from ECMAScript `Number(string)` semantics for the decimal
literals this API can meet: surrounding whitespace is ignored, the
empty (or all-whitespace) string converts to `0`, an optional sign
followed by digits with an optional fractional part converts to the
denoted rational, and every other string (such as `"abc"`) converts to
NaN.  Hexadecimal, exponent and `Infinity` forms are out of scope and
also map to NaN here. -/

/-- Whitespace stripped by `Number()`. -/
def isWs (c : Char) : Bool :=
  c == ' ' || c == '\t' || c == '\n' || c == '\r'

/-- Value of a digit string, most significant first. -/
def digitsToNat (cs : List Char) : Nat :=
  cs.foldl (fun a c => a * 10 + (c.toNat - 48)) 0

/-- An unsigned decimal literal: digits with an optional fractional
part.  At least one digit must appear on one side of the dot. -/
def parseUnsigned (cs : List Char) : JsNum :=
  match cs.span (fun c => c.isDigit) with
  | (intPart, rest) =>
    match rest with
    | [] => if intPart.isEmpty then none else some (digitsToNat intPart)
    | '.' :: frac =>
        if frac.all (fun c => c.isDigit) && (!intPart.isEmpty || !frac.isEmpty) then
          some ((digitsToNat intPart : ℚ) + (digitsToNat frac : ℚ) / (10 ^ frac.length : ℚ))
        else none
    | _ => none

/-- A signed decimal literal; the empty string is `0`. -/
def parseSigned : List Char → JsNum
  | [] => some 0
  | '-' :: rest => (parseUnsigned rest).map (fun q => -q)
  | '+' :: rest => parseUnsigned rest
  | cs => parseUnsigned cs

/-- `Number(s)` for a string `s`. -/
def jsNumber (s : String) : JsNum :=
  parseSigned (((s.toList.dropWhile isWs).reverse.dropWhile isWs).reverse)

/-- How a template literal renders a number.  Integers render as their
decimal digits and NaN as `"NaN"`; the ids this API produces are always
integers, so the non-integer rational case (unreachable here) keeps
Lean's `num/den` rendering. -/
def jsNumToString : JsNum → String
  | none => "NaN"
  | some q =>
      if q.den == 1 then
        if q.num < 0 then "-" ++ toString q.num.natAbs else toString q.num.natAbs
      else toString q

/-! ### The five handlers (`src/controller/blogs.js`)

Each takes the request data it reads plus the current `blogs` state and
returns its response together with the new state. -/

/-- `getAllBlogs`: returns the collection unchanged. -/
def getAllBlogs (bs : Blogs) : Blogs × Blogs := (bs, bs)

/-- `blogs.find(blog => blog.id === id)`: first matching record, `none`
for not found (`undefined`); accessing `blog.id` on an `undefined` slot
throws. -/
def findBlog (idv : JsNum) : Blogs → Except JsErr (Option Blog)
  | [] => .ok none
  | none :: _ => .error .typeError
  | some b :: rest =>
      if jsEq b.id idv then .ok (some b) else findBlog idv rest

/-- `getBlog`: parses the path id with `Number` and looks the record
up; the collection is left as it was. -/
def getBlog (pid : String) (bs : Blogs) : Except JsErr (Option Blog × Blogs) :=
  (findBlog (jsNumber pid) bs).map (fun r => (r, bs))

/-- `addBlog`: the new id is `blogs.length + 1` (the sum is between
natural numbers, carried into the number type); the record is pushed
and returned. -/
def addBlog (title : String) (bs : Blogs) : Blog × Blogs :=
  let newBlog : Blog := ⟨some ((bs.length + 1 : ℕ) : ℚ), title⟩
  (newBlog, bs ++ [some newBlog])

/-- `blogs.map(...)` inside `updateBlog`: a matching slot becomes the
updated record, a non-matching slot becomes `undefined` (the callback
falls off without a `return`), and an `undefined` slot throws on
`blog.id`. -/
def mapUpdate (idv : JsNum) (title : String) : Blogs → Except JsErr Blogs
  | [] => .ok []
  | none :: _ => .error .typeError
  | some b :: rest => do
      let tail ← mapUpdate idv title rest
      if jsEq b.id idv then .ok (some ⟨idv, title⟩ :: tail)
      else .ok (none :: tail)

/-- `updateBlog`: rewrites the collection with `mapUpdate` and returns
`{ id, title }` built from the request, whether or not any record
matched. -/
def updateBlog (pid : String) (title : String) (bs : Blogs) :
    Except JsErr (Blog × Blogs) :=
  let idv := jsNumber pid
  (mapUpdate idv title bs).map (fun bs2 => (⟨idv, title⟩, bs2))

/-- The confirmation string `deleteBlog` builds:
`Blog with ID ${id} is deleted`. -/
def deleteMsg (idv : JsNum) : String :=
  "Blog with ID " ++ jsNumToString idv ++ " is deleted"

/-- `blogs.filter(blog => blog.id !== id)`: keeps the slots whose id is
not strictly equal to the target; an `undefined` slot throws on
`blog.id`. -/
def filterDelete (idv : JsNum) : Blogs → Except JsErr Blogs
  | [] => .ok []
  | none :: _ => .error .typeError
  | some b :: rest => do
      let tail ← filterDelete idv rest
      if jsEq b.id idv then .ok tail else .ok (some b :: tail)

/-- `deleteBlog`: filters the collection and returns the confirmation
message, present or not. -/
def deleteBlog (pid : String) (bs : Blogs) : Except JsErr (String × Blogs) :=
  (filterDelete (jsNumber pid) bs).map (fun bs2 => (deleteMsg (jsNumber pid), bs2))

/-! ### Helper predicates on states -/

/-- No slot of the collection is `undefined`. -/
def allSome (bs : Blogs) : Bool := bs.all (fun ob => ob.isSome)

/-- Does this slot hold a record whose id is strictly equal to `idv`?
`undefined` slots match nothing. -/
def matchesId (idv : JsNum) : Option Blog → Bool
  | some b => jsEq b.id idv
  | none => false

deriving instance DecidableEq for Except

/-- The state reached from the demo data by deleting id 2: the ids 1, 2
and 3 have all been issued, and the collection length is 2. -/
def afterDelete2 : Blogs :=
  [ some ⟨some 1, "This is an experiment"⟩,
    some ⟨some 3, "Just another blog, yea!"⟩ ]

/-- The store of the spec's end-to-end scenario:
`[{1,"A"},{2,"B"},{3,"C"}]`. -/
def scenarioStore : Blogs :=
  [ some ⟨some 1, "A"⟩, some ⟨some 2, "B"⟩, some ⟨some 3, "C"⟩ ]

/-! ### Claim theorems: id assignment by `length + 1` -/

/-- C1: `addBlog` computes the new id as `blogs.length + 1`.  After
deleting id 2 from the demo data the length is 2, so the next create is
given id 3, an id this store instance already issued (a record with
id 3 is still present) — not an id strictly greater than every id ever
issued.  The record is appended and returned with that reused id. -/
theorem addBlog_reissues_already_issued_id :
    deleteBlog "2" blogs = .ok (deleteMsg (some 2), afterDelete2) ∧
    addBlog "D" afterDelete2 =
      (⟨some 3, "D"⟩, afterDelete2 ++ [some ⟨some 3, "D"⟩]) ∧
    some ⟨some 3, "Just another blog, yea!"⟩ ∈ afterDelete2 := by
  decide

/-- C2: the one-record-per-id invariant is not preserved by `addBlog`:
from the demo data, deleting id 2 and creating `"D"` leaves a state
with two records whose id is 3. -/
theorem addBlog_breaks_id_uniqueness :
    deleteBlog "2" blogs = .ok (deleteMsg (some 2), afterDelete2) ∧
    ((addBlog "D" afterDelete2).2.countP (fun ob => matchesId (some 3) ob)) = 2 := by
  decide

/-! ### Claim theorems: `updateBlog` -/

/-- C3: `updateBlog` on an id that matches no record does not return a
not-found result — it returns `{ id, title }` built from the request —
and it does not leave the collection unchanged: `blogs.map` turns the
non-matching record into `undefined`. -/
theorem updateBlog_missing_id_mutates_store :
    updateBlog "5" "X" [some ⟨some 1, "A"⟩] = .ok (⟨some 5, "X"⟩, [none]) := by
  decide

/-- C4: `updateBlog` on an existing id rewrites the matching record and
returns it, but the frame is violated: every other record's slot
becomes `undefined`. -/
theorem updateBlog_clobbers_other_records :
    updateBlog "1" "Z" [some ⟨some 1, "A"⟩, some ⟨some 2, "B"⟩]
      = .ok (⟨some 1, "Z"⟩, [some ⟨some 1, "Z"⟩, none]) := by
  decide

/-- C6: the create/get round trip fails on the reachable state
`afterDelete2`: the created record is `{id: 3, title: "D"}`, but
`getBlog "3"` then returns the pre-existing record with id 3, whose
title is not `"D"`. -/
theorem addBlog_then_getBlog_returns_stale_record :
    deleteBlog "2" blogs = .ok (deleteMsg (some 2), afterDelete2) ∧
    (addBlog "D" afterDelete2).1 = ⟨some 3, "D"⟩ ∧
    getBlog "3" (addBlog "D" afterDelete2).2
      = .ok (some ⟨some 3, "Just another blog, yea!"⟩, (addBlog "D" afterDelete2).2) ∧
    "Just another blog, yea!" ≠ "D" := by
  decide

/-- C7: the spec scenario, step by step.  The first three steps match
the spec, but the final create returns `{id: 3, title: "D"}` — id 3,
not id 4 — because the id is computed from the collection length. -/
theorem scenario_add_returns_id_3_not_4 :
    getBlog "2" scenarioStore = .ok (some ⟨some 2, "B"⟩, scenarioStore) ∧
    deleteBlog "2" scenarioStore
      = .ok ("Blog with ID 2 is deleted", [some ⟨some 1, "A"⟩, some ⟨some 3, "C"⟩]) ∧
    (getAllBlogs [some ⟨some 1, "A"⟩, some ⟨some 3, "C"⟩]).1
      = [some ⟨some 1, "A"⟩, some ⟨some 3, "C"⟩] ∧
    addBlog "D" [some ⟨some 1, "A"⟩, some ⟨some 3, "C"⟩]
      = (⟨some 3, "D"⟩, [some ⟨some 1, "A"⟩, some ⟨some 3, "C"⟩, some ⟨some 3, "D"⟩]) ∧
    (⟨some 3, "D"⟩ : Blog) ≠ ⟨some 4, "D"⟩ := by
  decide

/-- C8 counterexample: the delete result does not state whether a
record was removed.  Deleting id 1 from a store that holds id 1
(a removal) and from the empty store (a no-op) produces the very same
result. -/
theorem deleteBlog_result_ignores_presence :
    deleteBlog "1" [some ⟨some 1, "A"⟩] = .ok ("Blog with ID 1 is deleted", []) ∧
    deleteBlog "1" ([] : Blogs) = .ok ("Blog with ID 1 is deleted", []) := by
  decide

/-! ### Lemmas about `filterDelete` and `findBlog` on well-formed states -/

/-- On a state without `undefined` slots, `filterDelete` succeeds and
is the pure filter keeping the non-matching slots. -/
theorem filterDelete_eq_filter (idv : JsNum) (bs : Blogs) (h : allSome bs = true) :
    filterDelete idv bs = .ok (bs.filter (fun ob => !matchesId idv ob)) := by
  induction bs with
  | nil => rfl
  | cons ob rest ih =>
      match ob with
      | none => simp [allSome] at h
      | some b =>
          have hrest : allSome rest = true := by
            simp [allSome] at h ⊢
            exact h
          rw [filterDelete]
          rw [ih hrest]
          cases hb : jsEq b.id idv <;>
            simp [Bind.bind, Except.bind, matchesId, hb, List.filter_cons]

/-- Filtering never introduces an `undefined` slot. -/
theorem allSome_filter (p : Option Blog → Bool) (bs : Blogs) (h : allSome bs = true) :
    allSome (bs.filter p) = true := by
  simp only [allSome, List.all_eq_true] at h ⊢
  intro ob hob
  exact h ob (List.mem_filter.mp hob).1

/-- If every slot holds a record whose id differs from the target,
`find` succeeds with `undefined` (not found). -/
theorem findBlog_eq_none (idv : JsNum) (bs : Blogs)
    (h : ∀ ob ∈ bs, ∃ b, ob = some b ∧ jsEq b.id idv = false) :
    findBlog idv bs = .ok none := by
  induction bs with
  | nil => rfl
  | cons ob rest ih =>
      rcases h ob (by simp) with ⟨b, rfl, hb⟩
      rw [findBlog, hb]
      simp only [Bool.false_eq_true, if_false]
      exact ih (fun ob2 hob2 => h ob2 (by simp [hob2]))

/-- C5: from any state without `undefined` slots, deleting an id and
then getting the same id yields the not-found result (`undefined`),
and the listed collection no longer holds a record with that id. -/
theorem deleteBlog_then_getBlog_not_found (bs : Blogs) (pid : String)
    (h : allSome bs = true) :
    ∃ bs2, deleteBlog pid bs = .ok (deleteMsg (jsNumber pid), bs2) ∧
      getBlog pid bs2 = .ok (none, bs2) ∧
      ∀ b : Blog, some b ∈ (getAllBlogs bs2).1 → jsEq b.id (jsNumber pid) = false := by
  refine ⟨bs.filter (fun ob => !matchesId (jsNumber pid) ob), ?_, ?_, ?_⟩
  · simp [deleteBlog, Except.map, filterDelete_eq_filter _ _ h]
  · have hfind : findBlog (jsNumber pid) (bs.filter (fun ob => !matchesId (jsNumber pid) ob)) = .ok none := by
      apply findBlog_eq_none
      intro ob hob
      rcases List.mem_filter.mp hob with ⟨hmem, hp⟩
      have hsome : ob.isSome = true := by
        have := (List.all_eq_true.mp h) ob hmem
        simpa using this
      rcases Option.isSome_iff_exists.mp hsome with ⟨b, rfl⟩
      refine ⟨b, rfl, ?_⟩
      simpa [matchesId] using hp
    simp [getBlog, Except.map, hfind]
  · intro b hb
    rcases List.mem_filter.mp hb with ⟨hmem, hp⟩
    simpa [matchesId] using hp

/-- C5 applied at the demo data and path id `"2"`. -/
theorem deleteBlog_then_getBlog_not_found_witness :
    allSome blogs = true ∧
    ∃ bs2, deleteBlog "2" blogs = .ok (deleteMsg (jsNumber "2"), bs2) ∧
      getBlog "2" bs2 = .ok (none, bs2) ∧
      ∀ b : Blog, some b ∈ (getAllBlogs bs2).1 → jsEq b.id (jsNumber "2") = false :=
  ⟨by decide, deleteBlog_then_getBlog_not_found blogs "2" (by decide)⟩

/-- C8 (amended): on any state without `undefined` slots, delete never
fails; the new state is the old one minus every slot whose record
matches the id (so a matching record is removed when present); when no
slot matches, the state is unchanged; the returned confirmation
message references the id; and repeating the delete returns the very
same message and state (idempotent no-op). -/
theorem deleteBlog_removes_and_is_idempotent (bs : Blogs) (pid : String)
    (h : allSome bs = true) :
    ∃ bs2, deleteBlog pid bs = .ok (deleteMsg (jsNumber pid), bs2) ∧
      bs2 = bs.filter (fun ob => !matchesId (jsNumber pid) ob) ∧
      ((∀ ob ∈ bs, matchesId (jsNumber pid) ob = false) → bs2 = bs) ∧
      (∀ b : Blog, jsEq b.id (jsNumber pid) = true → some b ∉ bs2) ∧
      deleteBlog pid bs2 = .ok (deleteMsg (jsNumber pid), bs2) := by
  refine ⟨bs.filter (fun ob => !matchesId (jsNumber pid) ob), ?_, rfl, ?_, ?_, ?_⟩
  · simp [deleteBlog, Except.map, filterDelete_eq_filter _ _ h]
  · intro hnone
    apply List.filter_eq_self.mpr
    intro ob hob
    simp [hnone ob hob]
  · intro b hb hmem
    have := (List.mem_filter.mp hmem).2
    simp [matchesId, hb] at this
  · have h2 : allSome (bs.filter (fun ob => !matchesId (jsNumber pid) ob)) = true :=
      allSome_filter _ _ h
    rw [deleteBlog, filterDelete_eq_filter _ _ h2]
    have : (bs.filter (fun ob => !matchesId (jsNumber pid) ob)).filter
        (fun ob => !matchesId (jsNumber pid) ob)
        = bs.filter (fun ob => !matchesId (jsNumber pid) ob) := by
      apply List.filter_eq_self.mpr
      intro ob hob
      exact (List.mem_filter.mp hob).2
    rw [this]
    rfl

/-- C8 (amended) applied at the demo data and path id `"2"`. -/
theorem deleteBlog_removes_and_is_idempotent_witness :
    allSome blogs = true ∧
    ∃ bs2, deleteBlog "2" blogs = .ok (deleteMsg (jsNumber "2"), bs2) ∧
      bs2 = blogs.filter (fun ob => !matchesId (jsNumber "2") ob) ∧
      ((∀ ob ∈ blogs, matchesId (jsNumber "2") ob = false) → bs2 = blogs) ∧
      (∀ b : Blog, jsEq b.id (jsNumber "2") = true → some b ∉ bs2) ∧
      deleteBlog "2" bs2 = .ok (deleteMsg (jsNumber "2"), bs2) :=
  ⟨by decide, deleteBlog_removes_and_is_idempotent blogs "2" (by decide)⟩

/-- C10: a path id string that matches no stored record — in
particular one that parses to NaN, such as `"abc"` — makes `getBlog`
return the not-found result without throwing, and the collection it
hands back is the one it was given, unchanged. -/
theorem getBlog_unmatched_id_not_found (bs : Blogs) (pid : String)
    (h1 : allSome bs = true)
    (h2 : ∀ ob ∈ bs, matchesId (jsNumber pid) ob = false) :
    getBlog pid bs = .ok (none, bs) := by
  have hfind : findBlog (jsNumber pid) bs = .ok none := by
    apply findBlog_eq_none
    intro ob hob
    have hsome : ob.isSome = true := by
      have := (List.all_eq_true.mp h1) ob hob
      simpa using this
    rcases Option.isSome_iff_exists.mp hsome with ⟨b, rfl⟩
    refine ⟨b, rfl, ?_⟩
    simpa [matchesId] using h2 _ hob
  simp [getBlog, Except.map, hfind]

/-- C10 applied at the demo data and the non-numeric path id `"abc"`
(which `Number` turns into NaN). -/
theorem getBlog_unmatched_id_not_found_witness :
    (allSome blogs = true ∧ jsNumber "abc" = none ∧
      ∀ ob ∈ blogs, matchesId (jsNumber "abc") ob = false) ∧
    getBlog "abc" blogs = .ok (none, blogs) :=
  ⟨⟨by decide, by decide, by decide⟩,
    getBlog_unmatched_id_not_found blogs "abc" (by decide) (by decide)⟩

/-! ### Schema validation for `POST /api/blogs` (`src/routes/blogs.js`)

The route declares `addBlogValidation` whose `body` member is the JSON
Schema `{type: "object", additionalProperties: false, required:
["title"], properties: {title: {type: "string"}}}`.  We embed request
bodies as JSON values, the schema as data, and the validator from the
JSON-Schema meaning of those four keywords. -/

/-- A JSON value, as far as a request body needs. -/
inductive Json where
  | str (s : String)
  | num (q : JsNum)
  | jsonBool (b : Bool)
  | null
  | obj (fields : List (String × Json))

/-- The primitive types the routes' schemas name. -/
inductive PropType where
  | string
  | integer
deriving DecidableEq, Repr

/-- An object schema: the keywords the source's `body` schema uses. -/
structure ObjSchema where
  required : List String
  properties : List (String × PropType)
  additionalProperties : Bool

/-- The `body` member of `addBlogValidation`. -/
def addBlogBodySchema : ObjSchema :=
  { required := ["title"]
    properties := [("title", PropType.string)]
    additionalProperties := false }

/-- Does a JSON value have the named primitive type? -/
def typeOk : PropType → Json → Bool
  | .string, .str _ => true
  | .integer, .num (some q) => q.den == 1
  | _, _ => false

/-- Does an object body carry a property with this name? -/
def hasProp (j : Json) (k : String) : Bool :=
  match j with
  | .obj fields => fields.any (fun kv => kv.1 == k)
  | _ => false

/-- Modelled from the spec: the declarative validator the framework
runs before the handler ("Schema validation is declarative, attached
per-route, and applied before the handler executes"), for the keywords
the source's schema uses.  A body passes when it is an object, every
name in `required` is present, every present property declared in
`properties` has the declared type, and — when `additionalProperties`
is false — no undeclared property is present. -/
def validateObj (s : ObjSchema) : Json → Bool
  | .obj fields =>
      s.required.all (fun k => fields.any (fun kv => kv.1 == k)) &&
      fields.all (fun kv =>
        match s.properties.find? (fun p => p.1 == kv.1) with
        | some p => typeOk p.2 kv.2
        | none => s.additionalProperties)
  | _ => false

/-- How the handler reads `req.body.title` once validation passed. -/
def bodyTitle (j : Json) : String :=
  match j with
  | .obj fields =>
      match fields.find? (fun kv => kv.1 == "title") with
      | some kv =>
          match kv.2 with
          | .str s => s
          | _ => ""
      | none => ""
  | _ => ""

/-- The outcome of `POST /api/blogs`. -/
inductive AddOneResult where
  | badRequest
  | created (b : Blog)
deriving DecidableEq

/-- Modelled from the spec: "Validation failure short-circuits the
operation and never reaches the handler" — the route invokes `addBlog`
only on a body that passes `addBlogBodySchema`, and otherwise answers
with the 400-class result, leaving the store untouched. -/
def addOneRoute (body : Json) (bs : Blogs) : AddOneResult × Blogs :=
  if validateObj addBlogBodySchema body then
    let hres := addBlog (bodyTitle body) bs
    (.created hres.1, hres.2)
  else (.badRequest, bs)

/-- C9: a body without a `title` property, or with any property other
than `title`, fails the declared schema, so the route answers bad
request and the store is exactly what it was — the handler never ran. -/
theorem addOneRoute_rejects_invalid_body (body : Json) (bs : Blogs)
    (h : hasProp body "title" = false ∨ ∃ k, hasProp body k = true ∧ k ≠ "title") :
    addOneRoute body bs = (.badRequest, bs) := by
  have hv : validateObj addBlogBodySchema body = false := by
    cases body with
    | obj fields =>
        rcases h with hmiss | ⟨k, hk, hne⟩
        · simp only [hasProp] at hmiss
          simp [validateObj, addBlogBodySchema, hmiss]
        · simp only [hasProp, List.any_eq_true] at hk
          rcases hk with ⟨kv, hmem, hkv⟩
          have hkv2 : kv.1 = k := by simpa using hkv
          have hfield : (match addBlogBodySchema.properties.find? (fun p => p.1 == kv.1) with
              | some p => typeOk p.2 kv.2
              | none => addBlogBodySchema.additionalProperties) = false := by
            have hne2 : ("title" == kv.1) = false := by
              simp [hkv2]
              exact fun httl => hne httl.symm
            simp [addBlogBodySchema, List.find?, hne2]
          have : fields.all (fun kv : String × Json =>
              match addBlogBodySchema.properties.find? (fun p => p.1 == kv.1) with
              | some p => typeOk p.2 kv.2
              | none => addBlogBodySchema.additionalProperties) = false := by
            cases hall : fields.all (fun kv : String × Json =>
                match addBlogBodySchema.properties.find? (fun p => p.1 == kv.1) with
                | some p => typeOk p.2 kv.2
                | none => addBlogBodySchema.additionalProperties) with
            | false => rfl
            | true =>
                have := (List.all_eq_true.mp hall) kv hmem
                rw [hfield] at this
                cases this
          simp [validateObj, this]
    | str s => rfl
    | num q => rfl
    | jsonBool b => rfl
    | null => rfl
  simp [addOneRoute, hv]

/-- C9 applied to the body `{"name": "x"}`, which carries an
undeclared property (and no `title`), against the demo data. -/
theorem addOneRoute_rejects_invalid_body_witness :
    (hasProp (Json.obj [("name", Json.str "x")]) "name" = true ∧ "name" ≠ "title") ∧
    addOneRoute (Json.obj [("name", Json.str "x")]) blogs = (.badRequest, blogs) :=
  ⟨⟨by decide, by decide⟩,
    addOneRoute_rejects_invalid_body _ _ (Or.inr ⟨"name", by decide, by decide⟩)⟩
